import Mathlib

/-!
Verification development for the ApRES survey tool (`src/apressurvey/__main__.py`).

Shallow embedding of the parts of the program needed to settle the frozen
claims: the burst-configuration model (attenuator-count driven slot lists and
antenna masks), the rolling battery-voltage log, the status poller, the
trial/single burst trigger logic, the on-disk file catalog, the connect
handler, and the `DatetimeVar` string/datetime variable.

Modelling conventions: Python floats that are only stored and moved (never
computed with) are modelled as rationals; tkinter variables become explicit
state; functions that may raise become `Except`/`Option`; GUI side effects
(labels, dialogs, button states, scheduled callbacks) become fields of
explicit result records.
-/

/- ### Configuration model: `BurstConfigFrame.ConfigVariableFrame` -/

/-- Model of `ConfigVariableFrame.updateVisible(N)` (source lines 563-578):
the frame owns `selfN` entry widgets; the requested count `N` is clamped to
`selfN` from above and to `1` from below, and that many entries are shown.
Returns the number of visible entries. -/
def ConfigVariableFrame.updateVisible (selfN : Nat) (N : Nat) : Nat :=
  let N1 := if N > selfN then selfN else N
  if N1 < 1 then 1 else N1

/-- Model of the list comprehension in `BurstConfigFrame.updateConfig`
(source line 484): `rfAttnSet = [rfAttnVariableFrame.getNthValue(n) for n in
range(nAttens)]`. `getNth` is the value held by the n-th RF attenuation
spinbox (a float, modelled as a rational). -/
def BurstConfigFrame.rfAttnSet (getNth : Nat → ℚ) (nAttens : Nat) : List ℚ :=
  (List.range nAttens).map getNth

/-- Model of the list comprehension in `BurstConfigFrame.updateConfig`
(source line 487): `afGainSet = [afGainVariableFrame.getNthValue(n) for n in
range(nAttens)]`. AF gain spinboxes hold integers. -/
def BurstConfigFrame.afGainSet (getNth : Nat → ℤ) (nAttens : Nat) : List ℤ :=
  (List.range nAttens).map getNth

/- ### Antenna masks: `BurstConfigFrame.AntennaCheckbuttonFrame` -/

/-- Model of a tk `Checkbutton` click on an `IntVar`: the variable toggles
between the on-value 1 and the off-value 0. -/
def checkboxToggle (v : Nat) : Nat := if v = 1 then 0 else 1

/-- Model of `AntennaCheckbuttonFrame.checkAtLeastOne` (source lines 620-622):
if the sum of all checkbox values is zero, checkbox 0 is set to 1; otherwise
nothing happens. -/
def AntennaCheckbuttonFrame.checkAtLeastOne (mask : List Nat) : List Nat :=
  if mask.sum = 0 then mask.set 0 1 else mask

/-- Model of the user clicking checkbox `k`: tk toggles the variable and then
runs the `command` callback `checkAtLeastOne`. -/
def AntennaCheckbuttonFrame.clickCheckbox (mask : List Nat) (k : Nat) : List Nat :=
  AntennaCheckbuttonFrame.checkAtLeastOne (mask.set k (checkboxToggle (mask.getD k 0)))

/-- Model of `AntennaCheckbuttonFrame.setValues` (source lines 607-612): a
length check (against `N = 8`) followed by a plain assignment of every
checkbox value; no at-least-one check is performed. -/
def AntennaCheckbuttonFrame.setValues (values : List Nat) : Except String (List Nat) :=
  if values.length ≠ 8 then .error "values must be an array of length 8"
  else .ok values

/- ### Telemetry history: `StatusFrame.batteryLog` -/

/-- The fixed battery-log capacity `StatusFrame.BATTERY_LOG_SIZE` (source
line 129). -/
def StatusFrame.BATTERY_LOG_SIZE : Nat := 256

/-- Model of `np.roll(a, -1)` on a one-dimensional array: cyclic left shift
by one. -/
def npRollMinus1 (l : List ℚ) : List ℚ := l.drop 1 ++ l.take 1

/-- Model of the mutation step of `StatusFrame.batteryLogUpdate` (source
lines 198-200): `batteryLog = np.roll(batteryLog, -1); batteryLog[-1] = v`
where `v` is the current battery voltage. -/
def StatusFrame.batteryLogInsert (log : List ℚ) (v : ℚ) : List ℚ :=
  (npRollMinus1 log).set (log.length - 1) v

/-- Repeated insertion of a sequence of battery-voltage samples, one
`batteryLogUpdate` tick per sample. -/
def StatusFrame.insertAll (log : List ℚ) (xs : List ℚ) : List ℚ :=
  xs.foldl StatusFrame.batteryLogInsert log

/-- The initial battery log `np.zeros(BATTERY_LOG_SIZE)` (source line 150). -/
def StatusFrame.batteryLogInit : List ℚ :=
  List.replicate StatusFrame.BATTERY_LOG_SIZE 0

/- ### Helper lemmas -/

theorem setLast_append (t : List ℚ) (a v : ℚ) : (t ++ [a]).set t.length v = t ++ [v] := by
  induction t with
  | nil => rfl
  | cons b t ih => simp [List.set, ih]

theorem batteryLogInsert_length (log : List ℚ) (v : ℚ) :
    (StatusFrame.batteryLogInsert log v).length = log.length := by
  simp [StatusFrame.batteryLogInsert, npRollMinus1]
  omega

theorem batteryLogInsert_eq (log : List ℚ) (v : ℚ) (h : log ≠ []) :
    StatusFrame.batteryLogInsert log v = log.drop 1 ++ [v] := by
  obtain ⟨a, t⟩ := List.exists_cons_of_ne_nil h
  obtain ⟨t, rfl⟩ := t
  simp only [StatusFrame.batteryLogInsert, npRollMinus1, List.drop_succ_cons,
    List.drop_zero, List.take_succ_cons, List.take_zero, List.length_cons,
    Nat.add_sub_cancel]
  exact setLast_append t a v

theorem insertAll_eq_drop (log xs : List ℚ) (h : 1 ≤ log.length) :
    StatusFrame.insertAll log xs = (log ++ xs).drop xs.length := by
  induction xs generalizing log with
  | nil => simp [StatusFrame.insertAll]
  | cons x xs ih =>
    have hne : log ≠ [] := by
      intro hnil
      rw [hnil] at h
      simp at h
    obtain ⟨a, t, rfl⟩ := List.exists_cons_of_ne_nil hne
    have hins : StatusFrame.batteryLogInsert (a :: t) x = t ++ [x] :=
      batteryLogInsert_eq (a :: t) x (by simp)
    have hlen : 1 ≤ (t ++ [x]).length := by simp
    calc StatusFrame.insertAll (a :: t) (x :: xs)
        = StatusFrame.insertAll (t ++ [x]) xs := by
          simp [StatusFrame.insertAll, hins]
      _ = ((t ++ [x]) ++ xs).drop xs.length := ih (t ++ [x]) hlen
      _ = ((a :: t) ++ x :: xs).drop (x :: xs).length := by
          simp only [List.cons_append, List.length_cons, List.drop_succ_cons,
            List.append_assoc, List.singleton_append, List.nil_append]

/- ### Session, poller and trigger models -/

/-- Model of the API handle: `apreshttp.API(address)` followed by
`setKey(key)` (source lines 680-681). -/
structure Session where
  address : String
  key : String
deriving DecidableEq

/-- Status labels the application writes to `statusFrame.statusLabel`. -/
inductive UiLabel where
  | updatedFrom (addr : String)
  | cannotConnect (addr : String)
  | errorConnecting
  | notConnectedWarning
deriving DecidableEq

/-- Housekeeping status snapshot fetched by
`getAPI().system.housekeeping.status()`; only the fields the claims touch
are modelled. -/
structure Housekeeping where
  batteryVoltage : ℚ
  latitude : ℚ
  longitude : ℚ
deriving DecidableEq

/-- Observable outcome of one run of `ApRESSystemFrame.updateStatus`. -/
structure UpdateStatusStep where
  label : UiLabel
  scheduledNext : Bool
  errorDialog : Bool
  newStatus : Option Housekeeping
deriving DecidableEq

/-- Model of `ApRESSystemFrame.updateStatus` (source lines 694-711). With a
live API handle it fetches housekeeping status; on success it stores the
snapshot, sets the updated-from label and schedules the next poll with
`after(5000, updateStatus)`; if the fetch raises, the `except` branch sets
the error label and shows an error dialog and does not schedule anything;
with no API handle only the cannot-connect label is set. -/
def ApRESSystemFrame.updateStatus (api : Option Session) (addr : String)
    (fetch : Except String Housekeeping) : UpdateStatusStep :=
  match api with
  | none => ⟨.cannotConnect addr, false, false, none⟩
  | some _ =>
    match fetch with
    | .ok st => ⟨.updatedFrom addr, true, false, some st⟩
    | .error _ => ⟨.errorConnecting, false, true, none⟩

/-- Background color of the system frame. -/
inductive BgColor where
  | green
  | red
  | plain
deriving DecidableEq

/-- Outcome of the connect handshake: either the API object is created and
keyed (and the follow-up status/config refreshes ran), or some step raised. -/
inductive ConnOutcome where
  | ok
  | failed (msg : String)
deriving DecidableEq

/-- Observable result of `ApRESSystemFrame.connectToRadar`. -/
structure ConnectStep where
  api : Option Session
  bg : BgColor
  errorDialog : Bool
deriving DecidableEq

/-- Model of `ApRESSystemFrame.connectToRadar` (source lines 678-689): on
success `application.api` holds the new handle (address from the combo box,
key `18052021`) and the frame turns green; if anything raises, the `except`
branch turns the frame red, sets the error label, assigns
`application.api = None` and shows an error dialog — whatever handle was
previously held is discarded in both branches. -/
def ApRESSystemFrame.connectToRadar (prev : Option Session) (addr : String)
    (outcome : ConnOutcome) : ConnectStep :=
  match outcome with
  | .ok => ⟨some ⟨addr, "18052021"⟩, .green, false⟩
  | .failed _ => ⟨none, .red, true⟩

/-- State of a tk button widget. -/
inductive BtnState where
  | normal
  | disabled
deriving DecidableEq

/-- Observable result of one call to `ApRESTrialBurstFrame.doTrialBurst` or
of a click on its button. -/
structure TrialStep where
  button : BtnState
  apiCalled : Bool
  warned : Bool
  errorDialog : Bool
deriving DecidableEq

/-- Model of `ApRESTrialBurstFrame.doTrialBurst` (source lines 772-782):
with no API handle a not-connected warning is shown; otherwise
`radar.trialBurst(callback, wait=False)` is invoked unconditionally —
there is no check of any in-flight acquisition — and the button is disabled,
or re-enabled after an error dialog if the call raised (`callOk = false`). -/
def ApRESTrialBurstFrame.doTrialBurst (api : Option Session) (callOk : Bool)
    (button : BtnState) : TrialStep :=
  match api with
  | none => ⟨button, false, true, false⟩
  | some _ =>
    if callOk then ⟨.disabled, true, false, false⟩
    else ⟨.normal, true, false, true⟩

/-- Model of the GUI path to `doTrialBurst`: tk only runs a button's command
when the button is not disabled. -/
def ApRESTrialBurstFrame.clickTrialButton (api : Option Session) (callOk : Bool)
    (button : BtnState) : TrialStep :=
  if button = .normal then ApRESTrialBurstFrame.doTrialBurst api callOk button
  else ⟨button, false, false, false⟩

/-- Model of the tail of the completion callback
`ApRESTrialBurstFrame.updateBurstGraphs` (source line 840): the trial-burst
button is set back to normal. -/
def ApRESTrialBurstFrame.updateBurstGraphs_button : BtnState := .normal

/-- Outcome of `getAPI().data.download(results.filename, path)` as observed
by `save_latest_burst`: a local path, a `NotFoundException`, or any other
exception. -/
inductive DownloadOutcome where
  | ok (localPath : String) (sizeBytes : Nat)
  | notFound
  | otherError (msg : String)
deriving DecidableEq

/-- Kind of error dialog shown by the single-burst save path. -/
inductive SaveErrKind where
  | fileNotFound
  | generic
deriving DecidableEq

/-- Observable result of `ApRESSingleBurstFrame.save_latest_burst`. -/
structure SaveStep where
  button : BtnState
  surfaced : Option SaveErrKind
  prependedRow : Bool
  uncaughtException : Bool
deriving DecidableEq

/-- Model of `ApRESSingleBurstFrame.save_latest_burst` (source lines
1035-1056): on a successful download the file row is inserted at index 0 of
the file view and the button is re-enabled; a `NotFoundException` from the
download is caught and surfaced as a dedicated file-not-found dialog
(mentioning the SD card) with the button re-enabled; any other exception is
not caught by this handler, so it propagates and the button stays
disabled. -/
def ApRESSingleBurstFrame.save_latest_burst (dl : DownloadOutcome) : SaveStep :=
  match dl with
  | .ok _ _ => ⟨.normal, none, true, false⟩
  | .notFound => ⟨.normal, some .fileNotFound, false, false⟩
  | .otherError _ => ⟨.disabled, none, false, true⟩

/-- Observable result of `ApRESSingleBurstFrame.do_burst`. -/
structure BurstStep where
  button : BtnState
  apiCalled : Bool
  warned : Bool
  errorDialog : Bool
deriving DecidableEq

/-- Model of `ApRESSingleBurstFrame.do_burst` (source lines 1022-1033): with
no API handle a not-connected warning is shown; otherwise the button is
disabled and `radar.burst(callback, wait=False)` is invoked; if the call
raises, an error dialog is shown and the button is re-enabled. -/
def ApRESSingleBurstFrame.do_burst (api : Option Session) (callOk : Bool)
    (button : BtnState) : BurstStep :=
  match api with
  | none => ⟨button, false, true, false⟩
  | some _ =>
    if callOk then ⟨.disabled, true, false, false⟩
    else ⟨.normal, true, false, true⟩

/- ### Claim theorems C1-C3 -/

/-- C1: for every valid attenuator count `n` in `[1,4]`, the
`rfAttnSet`/`afGainSet` lists that `updateConfig` sends to the device have
length exactly `n`, and after editing the count or refreshing from the
device, `updateVisible` (with the frame's 4 slots) shows exactly `n`
entries. -/
theorem attenuator_lists_length (rf : Nat → ℚ) (af : Nat → ℤ) (n : Nat)
    (h1 : 1 ≤ n) (h2 : n ≤ 4) :
    (BurstConfigFrame.rfAttnSet rf n).length = n ∧
    (BurstConfigFrame.afGainSet af n).length = n ∧
    ConfigVariableFrame.updateVisible 4 n = n := by
  refine ⟨by simp [BurstConfigFrame.rfAttnSet], by simp [BurstConfigFrame.afGainSet], ?_⟩
  simp only [ConfigVariableFrame.updateVisible]
  split_ifs <;> omega

/-- Witness for C1 at the concrete count 3. -/
theorem attenuator_lists_length_witness :
    (BurstConfigFrame.rfAttnSet (fun _ => (30 : ℚ)) 3).length = 3 ∧
    (BurstConfigFrame.afGainSet (fun _ => (-14 : ℤ)) 3).length = 3 ∧
    ConfigVariableFrame.updateVisible 4 3 = 3 :=
  attenuator_lists_length (fun _ => (30 : ℚ)) (fun _ => (-14 : ℤ)) 3
    (by decide) (by decide)

/-- C2 counterexample: clearing the last set flag is not rejected or
reverted. Starting from mask `[0,1,0,0,0,0,0,0]`, clicking checkbox 1 leaves
the clicked flag cleared and instead sets flag 0, so the resulting mask
differs from the pre-toggle mask; moreover `setValues` accepts the all-zero
mask of length 8, leaving the mask all-zero. -/
theorem antennaMask_counterexample :
    AntennaCheckbuttonFrame.clickCheckbox [0, 1, 0, 0, 0, 0, 0, 0] 1 =
      [1, 0, 0, 0, 0, 0, 0, 0] ∧
    AntennaCheckbuttonFrame.clickCheckbox [0, 1, 0, 0, 0, 0, 0, 0] 1 ≠
      [0, 1, 0, 0, 0, 0, 0, 0] ∧
    AntennaCheckbuttonFrame.setValues [0, 0, 0, 0, 0, 0, 0, 0] =
      .ok [0, 0, 0, 0, 0, 0, 0, 0] := by
  refine ⟨by decide, by decide, rfl⟩

/-- C2 amended: after any checkbox click on a length-8 mask the mask is
never all-zero, because `checkAtLeastOne` sets flag 0 when the click cleared
the last set flag (it does not revert the clicked flag); `setValues` only
checks the length and can therefore install an all-zero mask. -/
theorem antennaMask_click_nonzero (mask : List Nat) (k : Nat) (h : mask.length = 8) :
    (AntennaCheckbuttonFrame.clickCheckbox mask k).sum ≠ 0 ∧
    (AntennaCheckbuttonFrame.clickCheckbox mask k).length = 8 ∧
    (∀ values : List Nat, values.length = 8 →
      AntennaCheckbuttonFrame.setValues values = .ok values) := by
  have key : ∀ m : List Nat, m ≠ [] →
      (AntennaCheckbuttonFrame.checkAtLeastOne m).sum ≠ 0 := by
    intro m hm
    unfold AntennaCheckbuttonFrame.checkAtLeastOne
    by_cases hz : m.sum = 0
    · rw [if_pos hz]
      obtain ⟨a, t, rfl⟩ := List.exists_cons_of_ne_nil hm
      simp [List.set]
    · rw [if_neg hz]
      exact hz
  refine ⟨?_, ?_, ?_⟩
  · unfold AntennaCheckbuttonFrame.clickCheckbox
    apply key
    intro hnil
    have := congrArg List.length hnil
    simp [h] at this
  · unfold AntennaCheckbuttonFrame.clickCheckbox AntennaCheckbuttonFrame.checkAtLeastOne
    split <;> simp [h]
  · intro values hv
    simp [AntennaCheckbuttonFrame.setValues, hv]

/-- Witness for the C2 amended theorem at a concrete mask. -/
theorem antennaMask_click_nonzero_witness :
    (AntennaCheckbuttonFrame.clickCheckbox [1, 0, 0, 0, 0, 0, 0, 0] 0).sum ≠ 0 ∧
    (AntennaCheckbuttonFrame.clickCheckbox [1, 0, 0, 0, 0, 0, 0, 0] 0).length = 8 ∧
    (∀ values : List Nat, values.length = 8 →
      AntennaCheckbuttonFrame.setValues values = .ok values) :=
  antennaMask_click_nonzero [1, 0, 0, 0, 0, 0, 0, 0] 0 (by decide)

/-- C3: the battery log has fixed capacity 256: every `batteryLogUpdate`
insertion preserves the length, and after 257 insertions into a full
256-sample buffer the content is exactly the last 256 samples — the oldest
sample was evicted in FIFO order and the newest sample sits at the final
position. -/
theorem batteryLog_fifo (log xs : List ℚ)
    (hlog : log.length = StatusFrame.BATTERY_LOG_SIZE)
    (hxs : xs.length = StatusFrame.BATTERY_LOG_SIZE + 1) :
    (∀ v, (StatusFrame.batteryLogInsert log v).length = StatusFrame.BATTERY_LOG_SIZE) ∧
    StatusFrame.insertAll log xs = xs.drop 1 ∧
    (StatusFrame.insertAll log xs).getLast? = xs.getLast? := by
  have hcap : StatusFrame.BATTERY_LOG_SIZE = 256 := rfl
  have h1 : 1 ≤ log.length := by omega
  have hdrop : StatusFrame.insertAll log xs = xs.drop 1 := by
    rw [insertAll_eq_drop log xs h1, hxs, ← hlog,
      List.drop_append_eq_append_drop, List.drop_eq_nil_of_le (by omega)]
    simp [Nat.add_sub_cancel_left]
  refine ⟨fun v => by rw [batteryLogInsert_length, hlog], hdrop, ?_⟩
  rw [hdrop]
  obtain ⟨a, t, rfl⟩ : ∃ a t, xs = a :: t := by
    cases xs with
    | nil => simp [hcap] at hxs
    | cons a t => exact ⟨a, t, rfl⟩
  have ht : t ≠ [] := by
    intro hnil
    rw [hnil] at hxs
    simp [hcap] at hxs
  obtain ⟨b, t', rfl⟩ := List.exists_cons_of_ne_nil ht
  show (b :: t').getLast? = (a :: b :: t').getLast?
  rw [List.getLast?_cons_cons]

/- ### Claim theorems C4-C6, C9 -/

/-- C4 counterexample: a failed status poll does not lead to a next
scheduled poll. With a live session, a poll whose fetch raises produces the
error label and an error dialog but `scheduledNext = false`: the
`after(5000, ...)` rescheduling sits only in the success branch of
`updateStatus`. -/
theorem updateStatus_failure_counterexample :
    (ApRESSystemFrame.updateStatus (some ⟨"http://localhost:8000/", "18052021"⟩)
        "http://localhost:8000/" (.error "timeout")).errorDialog = true ∧
    (ApRESSystemFrame.updateStatus (some ⟨"http://localhost:8000/", "18052021"⟩)
        "http://localhost:8000/" (.error "timeout")).scheduledNext = false := by
  exact ⟨rfl, rfl⟩

/-- C4 amended: a failed poll surfaces the error to the operator (error
label and error dialog) but schedules no next poll, so periodic polling
stops; only a successful poll schedules the next one on the fixed 5000 ms
schedule. -/
theorem updateStatus_failure_stops_polling (s : Session) (addr : String)
    (e : String) (st : Housekeeping) :
    ApRESSystemFrame.updateStatus (some s) addr (.error e) =
      ⟨.errorConnecting, false, true, none⟩ ∧
    (ApRESSystemFrame.updateStatus (some s) addr (.ok st)).scheduledNext = true := by
  exact ⟨rfl, rfl⟩

/-- C5 counterexample: with a trial burst in flight (the button was disabled
by a first successful trigger), a second `doTrialBurst` call on a connected
API still invokes `radar.trialBurst` — it is not rejected, and no busy error
dialog is raised. -/
theorem doTrialBurst_reentry_counterexample :
    (ApRESTrialBurstFrame.doTrialBurst
        (some ⟨"http://localhost:8000/", "18052021"⟩) true .normal).button =
      .disabled ∧
    (ApRESTrialBurstFrame.doTrialBurst
        (some ⟨"http://localhost:8000/", "18052021"⟩) true .disabled).apiCalled =
      true ∧
    (ApRESTrialBurstFrame.doTrialBurst
        (some ⟨"http://localhost:8000/", "18052021"⟩) true .disabled).errorDialog =
      false := by
  exact ⟨rfl, rfl, rfl⟩

/-- C5 amended: re-entrancy of the trial-burst workflow is prevented only at
the widget level — a successful trigger disables the button, and clicking a
disabled button does not run its command, so no second API call happens via
the GUI; `doTrialBurst` itself performs no busy check and never produces a
busy rejection: called directly while a burst is in flight it invokes the
API again; the completion callback re-enables the button. -/
theorem doTrialBurst_button_serialization (s : Session) (callOk2 : Bool) :
    (ApRESTrialBurstFrame.doTrialBurst (some s) true .normal).button = .disabled ∧
    (ApRESTrialBurstFrame.clickTrialButton (some s) callOk2 .disabled).apiCalled
      = false ∧
    (ApRESTrialBurstFrame.doTrialBurst (some s) callOk2 .disabled).apiCalled
      = true ∧
    ApRESTrialBurstFrame.updateBurstGraphs_button = .normal := by
  refine ⟨rfl, rfl, ?_, rfl⟩
  cases callOk2 <;> rfl

/-- C6: a download that reports file-not-found is surfaced as the dedicated
file-not-found dialog (missing SD card), not as a generic error; the burst
button returns to normal (Idle), and a subsequent `do_burst` with a
connected API invokes the API again — the workflow is retriggerable. -/
theorem save_latest_burst_notFound (s : Session) (callOk : Bool) :
    (ApRESSingleBurstFrame.save_latest_burst .notFound).surfaced =
      some .fileNotFound ∧
    (ApRESSingleBurstFrame.save_latest_burst .notFound).surfaced ≠
      some .generic ∧
    (ApRESSingleBurstFrame.save_latest_burst .notFound).button = .normal ∧
    (ApRESSingleBurstFrame.do_burst (some s) callOk
      (ApRESSingleBurstFrame.save_latest_burst .notFound).button).apiCalled =
      true := by
  refine ⟨rfl, by decide, rfl, ?_⟩
  cases callOk <;> rfl

/-- C9: every failed connect attempt leaves the controller disconnected with
no live session, regardless of what session was previously held: the
`except` branch of `connectToRadar` assigns `api = None`, turns the frame
red and shows an error dialog; afterwards a trial-burst trigger only
produces the not-connected warning and no API call. -/
theorem connectToRadar_failure_disconnects (prev : Option Session)
    (addr msg : String) :
    (ApRESSystemFrame.connectToRadar prev addr (.failed msg)).api = none ∧
    (ApRESSystemFrame.connectToRadar prev addr (.failed msg)).bg = .red ∧
    (ApRESSystemFrame.connectToRadar prev addr (.failed msg)).errorDialog = true ∧
    (∀ callOk button,
      (ApRESTrialBurstFrame.doTrialBurst
        (ApRESSystemFrame.connectToRadar prev addr (.failed msg)).api
        callOk button).warned = true ∧
      (ApRESTrialBurstFrame.doTrialBurst
        (ApRESSystemFrame.connectToRadar prev addr (.failed msg)).api
        callOk button).apiCalled = false) := by
  exact ⟨rfl, rfl, rfl, fun callOk button => ⟨rfl, rfl⟩⟩

/- ### File catalog: `ApRESSingleBurstFrame.update_file_tree` -/

/-- Directory entry as seen by `os.listdir` plus the `stat` data used by the
file tree: name, whether `Path.is_file()` holds, modification time and
size. -/
structure FSEntry where
  name : String
  isFile : Bool
  mtime : Int
  sizeBytes : Nat
deriving DecidableEq

/-- Flat model of the filesystem: an association list from directory path to
its entries; a path is a directory iff it has a binding. -/
structure FileSystem where
  dirs : List (String × List FSEntry)
deriving DecidableEq

/-- Model of `pathlib.Path.is_dir`. -/
def FileSystem.isDir (fs : FileSystem) (p : String) : Bool :=
  (fs.dirs.lookup p).isSome

/-- Entries listed by `os.listdir` for a directory. -/
def FileSystem.entriesOf (fs : FileSystem) (p : String) : List FSEntry :=
  (fs.dirs.lookup p).getD []

/-- Model of `pathlib.Path.mkdir(parents=True)` on an absent path: the
directory is added, empty. -/
def FileSystem.mkdir (fs : FileSystem) (p : String) : FileSystem :=
  ⟨(p, []) :: fs.dirs⟩

/-- Model of `os.path.splitext(f)[1]` for a bare filename: the extension
starts at the last dot, except that a basename consisting only of leading
dots up to that point has no extension. -/
def splitextExt (s : List Char) : List Char :=
  match ((s.enum.filter (fun ci => ci.2 = '.')).map (fun ci => ci.1)).getLast? with
  | none => []
  | some i => if (s.take i).any (fun c => c ≠ '.') then s.drop i else []

/-- The filter applied by `update_file_tree` (source lines 1003-1004):
`f_path.is_file() and os.path.splitext(f)[1].lower() == ".dat"`. -/
def burstFileFilter (e : FSEntry) : Bool :=
  e.isFile && ((splitextExt e.name.data).map Char.toLower = ".dat".data)

/-- Ascending modification-time order used to model `np.argsort(file_dates)`.
`argsort` sorts ascending; tie order is unspecified in both the source and
this model's statements. -/
def mtimeLe (a b : FSEntry) : Prop := a.mtime ≤ b.mtime

instance : DecidableRel mtimeLe := fun a b => inferInstanceAs (Decidable (a.mtime ≤ b.mtime))

instance : IsTotal FSEntry mtimeLe := ⟨fun a b => Int.le_total a.mtime b.mtime⟩

instance : IsTrans FSEntry mtimeLe := ⟨fun _ _ _ => Int.le_trans⟩

/-- Model of `ApRESSingleBurstFrame.update_file_tree` (source lines
989-1020): if the survey path is a directory, its entries are filtered to
regular files with (lowercased) extension `.dat`, sorted ascending by
modification time (`np.argsort`) and inserted in reversed order — i.e. the
rows come out newest-first; if the path is not a directory, nothing is
scanned and the view stays empty. In both cases the filesystem is left
untouched: no directory is ever created here. -/
def ApRESSingleBurstFrame.update_file_tree (fs : FileSystem) (path : String) :
    List FSEntry × FileSystem :=
  if fs.isDir path then
    (((fs.entriesOf path).filter burstFileFilter).insertionSort mtimeLe |>.reverse, fs)
  else ([], fs)

/-- Model of `ApRESSingleBurstFrame.get_default_survey_path` (source lines
967-977): the default survey path under the home directory, created with
`mkdir(parents=True)` when absent. -/
def ApRESSingleBurstFrame.get_default_survey_path (fs : FileSystem)
    (home today : String) : String × FileSystem :=
  let path := home ++ "/ApRES/Survey_" ++ today
  if fs.isDir path then (path, fs) else (path, fs.mkdir path)

/- ### Claim theorems C7-C8 -/

/-- C7 counterexample: a file-tree refresh over an absent directory does not
create the directory. On the empty filesystem, refreshing path `d` yields an
empty catalog and leaves the filesystem unchanged, with `d` still absent. -/
theorem update_file_tree_no_mkdir_counterexample :
    (ApRESSingleBurstFrame.update_file_tree ⟨[]⟩ "d").1 = [] ∧
    (ApRESSingleBurstFrame.update_file_tree ⟨[]⟩ "d").2 = ⟨[]⟩ ∧
    ((ApRESSingleBurstFrame.update_file_tree ⟨[]⟩ "d").2).isDir "d" = false := by
  exact ⟨rfl, rfl, rfl⟩

/-- C7 amended: a refresh over an absent directory succeeds and yields an
empty catalog, but leaves the filesystem untouched — the directory is not
created. Directory creation happens only in `get_default_survey_path` for
the default survey path, which creates it when absent, afterwards reports it
as existing, and is idempotent. -/
theorem update_file_tree_absent_dir (fs : FileSystem) (p : String)
    (h : fs.isDir p = false) :
    ApRESSingleBurstFrame.update_file_tree fs p = ([], fs) ∧
    (∀ home today,
      ((ApRESSingleBurstFrame.get_default_survey_path fs home today).2).isDir
        (ApRESSingleBurstFrame.get_default_survey_path fs home today).1 = true ∧
      ApRESSingleBurstFrame.get_default_survey_path
        (ApRESSingleBurstFrame.get_default_survey_path fs home today).2 home today =
        ((ApRESSingleBurstFrame.get_default_survey_path fs home today).1,
         (ApRESSingleBurstFrame.get_default_survey_path fs home today).2)) := by
  constructor
  · simp [ApRESSingleBurstFrame.update_file_tree, h]
  · intro home today
    by_cases hd : fs.isDir (home ++ "/ApRES/Survey_" ++ today) = true
    · simp [ApRESSingleBurstFrame.get_default_survey_path, hd]
    · have hd' : fs.isDir (home ++ "/ApRES/Survey_" ++ today) = false := by
        simpa using hd
      have hmk : (fs.mkdir (home ++ "/ApRES/Survey_" ++ today)).isDir
          (home ++ "/ApRES/Survey_" ++ today) = true := by
        simp [FileSystem.mkdir, FileSystem.isDir, List.lookup]
      constructor
      · simp [ApRESSingleBurstFrame.get_default_survey_path, hd', hmk]
      · simp [ApRESSingleBurstFrame.get_default_survey_path, hd', hmk]

/-- Witness for the C7 amended theorem on the empty filesystem. -/
theorem update_file_tree_absent_dir_witness :
    ApRESSingleBurstFrame.update_file_tree ⟨[]⟩ "d" = ([], ⟨[]⟩) ∧
    (∀ home today,
      ((ApRESSingleBurstFrame.get_default_survey_path ⟨[]⟩ home today).2).isDir
        (ApRESSingleBurstFrame.get_default_survey_path ⟨[]⟩ home today).1 = true ∧
      ApRESSingleBurstFrame.get_default_survey_path
        (ApRESSingleBurstFrame.get_default_survey_path ⟨[]⟩ home today).2 home today =
        ((ApRESSingleBurstFrame.get_default_survey_path ⟨[]⟩ home today).1,
         (ApRESSingleBurstFrame.get_default_survey_path ⟨[]⟩ home today).2)) :=
  update_file_tree_absent_dir ⟨[]⟩ "d" rfl

/-- C8: refreshing the file tree over an existing directory returns exactly
its regular files whose extension lowercases to `.dat` — every row passes
that test, the rows are a permutation of the filtered directory listing, and
they are ordered newest-first (non-increasing modification time). -/
theorem update_file_tree_catalog (fs : FileSystem) (p : String)
    (entries : List FSEntry) (h : fs.dirs.lookup p = some entries) :
    (∀ e ∈ (ApRESSingleBurstFrame.update_file_tree fs p).1,
      e.isFile = true ∧ (splitextExt e.name.data).map Char.toLower = ".dat".data) ∧
    (ApRESSingleBurstFrame.update_file_tree fs p).1.Perm
      (entries.filter burstFileFilter) ∧
    (ApRESSingleBurstFrame.update_file_tree fs p).1.Sorted
      (fun a b => b.mtime ≤ a.mtime) := by
  have hdir : fs.isDir p = true := by simp [FileSystem.isDir, h]
  have hent : fs.entriesOf p = entries := by simp [FileSystem.entriesOf, h]
  have hrows : (ApRESSingleBurstFrame.update_file_tree fs p).1 =
      ((entries.filter burstFileFilter).insertionSort mtimeLe).reverse := by
    simp [ApRESSingleBurstFrame.update_file_tree, hdir, hent]
  refine ⟨?_, ?_, ?_⟩
  · intro e he
    rw [hrows] at he
    rw [List.mem_reverse] at he
    have := (List.perm_insertionSort mtimeLe (entries.filter burstFileFilter)).mem_iff.mp he
    have hf := List.of_mem_filter this
    unfold burstFileFilter at hf
    constructor
    · exact (Bool.and_eq_true _ _ |>.mp hf).1
    · have := (Bool.and_eq_true _ _ |>.mp hf).2
      simpa using this
  · rw [hrows]
    exact (List.reverse_perm _).trans (List.perm_insertionSort mtimeLe _)
  · rw [hrows]
    have hsorted : ((entries.filter burstFileFilter).insertionSort mtimeLe).Sorted
        mtimeLe := List.sorted_insertionSort mtimeLe _
    rw [List.Sorted, List.pairwise_reverse]
    exact hsorted

/-- Witness for C8 on a concrete directory holding an old `.dat` file, a
newer `.DAT` file, a text file and a subdirectory. -/
theorem update_file_tree_catalog_witness :
    (∀ e ∈ (ApRESSingleBurstFrame.update_file_tree
        ⟨[("survey", [⟨"a.dat", true, 5, 10⟩, ⟨"b.txt", true, 9, 1⟩,
          ⟨"C.DAT", true, 7, 2⟩, ⟨"sub", false, 100, 0⟩])]⟩ "survey").1,
      e.isFile = true ∧ (splitextExt e.name.data).map Char.toLower = ".dat".data) ∧
    (ApRESSingleBurstFrame.update_file_tree
        ⟨[("survey", [⟨"a.dat", true, 5, 10⟩, ⟨"b.txt", true, 9, 1⟩,
          ⟨"C.DAT", true, 7, 2⟩, ⟨"sub", false, 100, 0⟩])]⟩ "survey").1.Perm
      ([⟨"a.dat", true, 5, 10⟩, ⟨"b.txt", true, 9, 1⟩,
        ⟨"C.DAT", true, 7, 2⟩, ⟨"sub", false, 100, 0⟩].filter burstFileFilter) ∧
    (ApRESSingleBurstFrame.update_file_tree
        ⟨[("survey", [⟨"a.dat", true, 5, 10⟩, ⟨"b.txt", true, 9, 1⟩,
          ⟨"C.DAT", true, 7, 2⟩, ⟨"sub", false, 100, 0⟩])]⟩ "survey").1.Sorted
      (fun a b => b.mtime ≤ a.mtime) :=
  update_file_tree_catalog _ "survey"
    [⟨"a.dat", true, 5, 10⟩, ⟨"b.txt", true, 9, 1⟩,
      ⟨"C.DAT", true, 7, 2⟩, ⟨"sub", false, 100, 0⟩] rfl

/- ### `DatetimeVar`: datetime-backed string variable -/

/-- Fields of a Python naive `datetime.datetime` that the application's
format string `%Y-%m-%d %H:%M:%S` renders. -/
structure PyDatetime where
  year : Nat
  month : Nat
  day : Nat
  hour : Nat
  minute : Nat
  second : Nat
deriving DecidableEq

/-- Gregorian leap-year rule used by Python's `datetime`. -/
def isLeapYear (y : Nat) : Bool :=
  y % 4 = 0 && (y % 100 ≠ 0 || y % 400 = 0)

/-- Days in a month, as validated by the `datetime.datetime` constructor. -/
def daysInMonth (y m : Nat) : Nat :=
  if m = 2 then (if isLeapYear y then 29 else 28)
  else if m = 4 ∨ m = 6 ∨ m = 9 ∨ m = 11 then 30
  else 31

/-- Field ranges accepted by `datetime.datetime` (year capped at 9999, real
calendar days), i.e. the values `datetime.strptime` can produce for the
application's format. -/
abbrev ValidDatetime (dt : PyDatetime) : Prop :=
  1 ≤ dt.year ∧ dt.year ≤ 9999 ∧ 1 ≤ dt.month ∧ dt.month ≤ 12 ∧
  1 ≤ dt.day ∧ dt.day ≤ daysInMonth dt.year dt.month ∧
  dt.hour ≤ 23 ∧ dt.minute ≤ 59 ∧ dt.second ≤ 59

/-- The decimal digit character for `n ≤ 9`. -/
def digitChar (n : Nat) : Char := Char.ofNat (48 + n)

/-- Numeric value of a decimal digit character. -/
def charVal (c : Char) : Nat := c.toNat - 48

/-- Test for a decimal digit character. -/
def isDigitCh (c : Char) : Bool := 48 ≤ c.toNat && c.toNat ≤ 57

/-- Two-digit zero-padded rendering (for `%m %d %H %M %S`). -/
def pad2 (n : Nat) : List Char := [digitChar (n / 10), digitChar (n % 10)]

/-- Four-digit zero-padded rendering (for `%Y`; `%Y` is modelled as
zero-padded to width 4, the rendering `strptime` accepts back). -/
def pad4 (n : Nat) : List Char :=
  [digitChar (n / 1000), digitChar (n / 100 % 10), digitChar (n / 10 % 10),
    digitChar (n % 10)]

/-- Model of `dt.strftime("%Y-%m-%d %H:%M:%S")` (the application's
`DatetimeVar.DATETIME_FORMAT`, source line 70). -/
def strftimeFmt (dt : PyDatetime) : String :=
  ⟨pad4 dt.year ++ '-' :: (pad2 dt.month ++ '-' :: (pad2 dt.day ++
    ' ' :: (pad2 dt.hour ++ ':' :: (pad2 dt.minute ++ ':' :: pad2 dt.second))))⟩

/-- Parse two digit characters. -/
def parse2 (c1 c2 : Char) : Option Nat :=
  if isDigitCh c1 && isDigitCh c2 then some (charVal c1 * 10 + charVal c2)
  else none

/-- Parse four digit characters. -/
def parse4 (c1 c2 c3 c4 : Char) : Option Nat :=
  if isDigitCh c1 && isDigitCh c2 && isDigitCh c3 && isDigitCh c4 then
    some (charVal c1 * 1000 + charVal c2 * 100 + charVal c3 * 10 + charVal c4)
  else none

/-- Model of `datetime.datetime.strptime(s, "%Y-%m-%d %H:%M:%S")` restricted
to the canonical zero-padded rendering of the format: a 19-character string
with digit fields and literal separators, whose fields pass the
`datetime.datetime` constructor's range checks; anything else raises
`ValueError` (modelled as `none`). -/
def strptimeFmt (s : String) : Option PyDatetime :=
  match s.data with
  | [y1, y2, y3, y4, a1, mo1, mo2, a2, dy1, dy2, a3, h1, h2, a4, mi1, mi2,
      a5, s1, s2] =>
    if a1 = '-' ∧ a2 = '-' ∧ a3 = ' ' ∧ a4 = ':' ∧ a5 = ':' then
      match parse4 y1 y2 y3 y4, parse2 mo1 mo2, parse2 dy1 dy2, parse2 h1 h2,
          parse2 mi1 mi2, parse2 s1 s2 with
      | some y, some mo, some dy, some hh, some mi, some se =>
        if ValidDatetime ⟨y, mo, dy, hh, mi, se⟩ then
          some ⟨y, mo, dy, hh, mi, se⟩
        else none
      | _, _, _, _, _, _ => none
    else none
  | _ => none

/-- The `self.datetime` attribute of a `DatetimeVar`: `None`, an actual
parsed datetime, or — after the buggy assignment `self.datetime = datetime`
in the datetime branch of `set` (source line 106) — a reference to the
`datetime` module itself. -/
inductive DtField where
  | noneF
  | parsed (dt : PyDatetime)
  | moduleRef
deriving DecidableEq

/-- State of a `DatetimeVar`: its `datetime` attribute and the underlying
tk string variable. -/
structure DatetimeVarState where
  datetime : DtField
  stringVar : String
deriving DecidableEq

/-- A Python value passed to `DatetimeVar.set`: a `datetime.datetime`, a
`str`, or any other object. -/
inductive PyInput where
  | dtVal (d : PyDatetime)
  | strVal (s : String)
  | otherVal
deriving DecidableEq

/-- Exceptions raised by the `DatetimeVar` methods. -/
inductive PyError where
  | valueError
  | attributeError
deriving DecidableEq

/-- Model of `DatetimeVar.set` (source lines 98-112): a datetime argument
stores the `datetime` module into `self.datetime` (the source's bug) and
writes the formatted string to the tk variable; a string argument is parsed
with `strptime` (raising `ValueError` on mismatch) and stored verbatim in
the tk variable; any other argument raises `ValueError`. -/
def DatetimeVar.set (v : PyInput) : Except PyError DatetimeVarState :=
  match v with
  | .dtVal d => .ok ⟨.moduleRef, strftimeFmt d⟩
  | .strVal s =>
    match strptimeFmt s with
    | some d => .ok ⟨.parsed d, s⟩
    | none => .error .valueError
  | .otherVal => .error .valueError

/-- Model of `DatetimeVar.get` (source lines 87-96): formats
`self.datetime`, or the current time when `self.datetime` is `None`;
calling `strftime` on the module reference left by the buggy datetime
branch of `set` raises `AttributeError`. -/
def DatetimeVar.get (st : DatetimeVarState) (now : PyDatetime) :
    Except PyError String :=
  match st.datetime with
  | .noneF => .ok (strftimeFmt now)
  | .parsed d => .ok (strftimeFmt d)
  | .moduleRef => .error .attributeError

/-- A canonical datetime string: the zero-padded rendering of some valid
datetime under the application's format. -/
def IsCanonicalDatetime (s : String) : Prop :=
  ∃ dt : PyDatetime, ValidDatetime dt ∧ strftimeFmt dt = s

/- ### Digit and format round-trip lemmas -/

theorem charVal_digitChar (n : Nat) (h : n ≤ 9) : charVal (digitChar n) = n := by
  interval_cases n <;> decide

theorem isDigitCh_digitChar (n : Nat) (h : n ≤ 9) :
    isDigitCh (digitChar n) = true := by
  interval_cases n <;> decide

theorem parse2_pad2 (n : Nat) (h : n ≤ 99) :
    parse2 (digitChar (n / 10)) (digitChar (n % 10)) = some n := by
  unfold parse2
  rw [isDigitCh_digitChar _ (by omega), isDigitCh_digitChar _ (by omega)]
  simp only [Bool.and_self, if_true]
  rw [charVal_digitChar _ (by omega), charVal_digitChar _ (by omega)]
  congr 1
  omega

theorem parse4_pad4 (n : Nat) (h : n ≤ 9999) :
    parse4 (digitChar (n / 1000)) (digitChar (n / 100 % 10))
      (digitChar (n / 10 % 10)) (digitChar (n % 10)) = some n := by
  unfold parse4
  rw [isDigitCh_digitChar _ (by omega), isDigitCh_digitChar _ (by omega),
    isDigitCh_digitChar _ (by omega), isDigitCh_digitChar _ (by omega)]
  simp only [Bool.and_self, if_true]
  rw [charVal_digitChar _ (by omega), charVal_digitChar _ (by omega),
    charVal_digitChar _ (by omega), charVal_digitChar _ (by omega)]
  congr 1
  omega

theorem strptimeFmt_strftimeFmt (dt : PyDatetime) (h : ValidDatetime dt) :
    strptimeFmt (strftimeFmt dt) = some dt := by
  obtain ⟨h1, h2, h3, h4, h5, h6, h7, h8, h9⟩ := h
  have hdy : dt.day ≤ 99 := by
    have hdm : daysInMonth dt.year dt.month ≤ 31 := by
      unfold daysInMonth
      split_ifs <;> omega
    omega
  have e1 : strptimeFmt (strftimeFmt dt) =
      match parse4 (digitChar (dt.year / 1000)) (digitChar (dt.year / 100 % 10))
          (digitChar (dt.year / 10 % 10)) (digitChar (dt.year % 10)),
        parse2 (digitChar (dt.month / 10)) (digitChar (dt.month % 10)),
        parse2 (digitChar (dt.day / 10)) (digitChar (dt.day % 10)),
        parse2 (digitChar (dt.hour / 10)) (digitChar (dt.hour % 10)),
        parse2 (digitChar (dt.minute / 10)) (digitChar (dt.minute % 10)),
        parse2 (digitChar (dt.second / 10)) (digitChar (dt.second % 10)) with
      | some a, some b, some c, some d, some e, some f =>
        if ValidDatetime ⟨a, b, c, d, e, f⟩ then some ⟨a, b, c, d, e, f⟩
        else none
      | _, _, _, _, _, _ => none := by
    rfl
  rw [e1, parse4_pad4 dt.year h2, parse2_pad2 dt.month (by omega),
    parse2_pad2 dt.day hdy, parse2_pad2 dt.hour (by omega),
    parse2_pad2 dt.minute (by omega), parse2_pad2 dt.second (by omega)]
  show (if ValidDatetime dt then some dt else none) = some dt
  exact if_pos ⟨h1, h2, h3, h4, h5, h6, h7, h8, h9⟩

/- ### Claim theorem C10 -/

/-- C10: for every canonical datetime string `s` (the zero-padded rendering
of a valid datetime under the application's format), `DatetimeVar.set`
accepts `s` and a subsequent `DatetimeVar.get` returns `s` unchanged; and
`set` raises `ValueError` on every value that is neither a string nor a
datetime. -/
theorem datetimeVar_set_get_roundtrip (s : String) (h : IsCanonicalDatetime s)
    (now : PyDatetime) :
    (∃ st : DatetimeVarState, DatetimeVar.set (.strVal s) = .ok st ∧
      DatetimeVar.get st now = .ok s) ∧
    DatetimeVar.set .otherVal = .error .valueError := by
  obtain ⟨dt, hv, hs⟩ := h
  refine ⟨⟨⟨.parsed dt, s⟩, ?_, ?_⟩, rfl⟩
  · show (match strptimeFmt s with
      | some d => Except.ok (⟨.parsed d, s⟩ : DatetimeVarState)
      | none => Except.error PyError.valueError) =
        .ok (⟨.parsed dt, s⟩ : DatetimeVarState)
    rw [← hs, strptimeFmt_strftimeFmt dt hv]
  · show Except.ok (strftimeFmt dt) = Except.ok s
    rw [hs]

/-- Witness for C10 at the concrete canonical string
`2021-05-18 12:34:56`. -/
theorem datetimeVar_set_get_roundtrip_witness :
    (∃ st : DatetimeVarState,
      DatetimeVar.set (.strVal "2021-05-18 12:34:56") = .ok st ∧
      DatetimeVar.get st ⟨2020, 1, 1, 0, 0, 0⟩ = .ok "2021-05-18 12:34:56") ∧
    DatetimeVar.set .otherVal = .error .valueError :=
  datetimeVar_set_get_roundtrip "2021-05-18 12:34:56"
    ⟨⟨2021, 5, 18, 12, 34, 56⟩, by decide, by decide⟩ ⟨2020, 1, 1, 0, 0, 0⟩

/-- Witness for C3 with a concrete full buffer and 257 concrete samples. -/
theorem batteryLog_fifo_witness :
    (∀ v, (StatusFrame.batteryLogInsert (List.replicate 256 (0 : ℚ)) v).length =
      StatusFrame.BATTERY_LOG_SIZE) ∧
    StatusFrame.insertAll (List.replicate 256 (0 : ℚ))
      (List.replicate 257 (1 : ℚ)) = (List.replicate 257 (1 : ℚ)).drop 1 ∧
    (StatusFrame.insertAll (List.replicate 256 (0 : ℚ))
      (List.replicate 257 (1 : ℚ))).getLast? =
      (List.replicate 257 (1 : ℚ)).getLast? :=
  batteryLog_fifo (List.replicate 256 (0 : ℚ)) (List.replicate 257 (1 : ℚ))
    (by rw [List.length_replicate]; rfl) (by rw [List.length_replicate]; rfl)
